import Mathlib

/-!
Shallow embedding of `src/main.py` (farm-ng camera-streamer-kivy).

The source is a single Kivy/asyncio application `CameraApp` that
subscribes to four camera streams of one `oak0` event service and
displays the currently selected one.  We embed:

  * the data model (`EventServiceConfig` lists, subscription entries,
    decoded images, subscribe requests);
  * `CameraApp.__init__` / `update_view` as explicit state passing;
  * the body of the `async for` loop of `CameraApp.stream_camera`
    as a pure per-event step (`processEvent`) — the loop body has no
    `await` between reading `self.view_name` and assigning the texture,
    so it runs atomically on the cooperative event loop and the
    interleaving of deliveries and `update_view` calls is a plain
    sequence of atomic operations (`runOutcomes`);
  * the readiness busy-wait (`while self.root is None`) as a
    fuel-bounded poll trace;
  * the startup logic of `CameraApp.app_func` (resolution of the
    `oak0` config, the error raise, task creation) and the
    `run_wrapper` shutdown path.
-/

namespace CameraStreamer

/-- One entry of `config.subscriptions` (farm_ng `SubscribeRequest` inside
an `EventServiceConfig`): a uri path and an `every_n` sampling interval. -/
structure SubscriptionCfg where
  uriPath : String
  every_n : Nat
  deriving Repr, DecidableEq

/-- Configuration of one named service with its subscription list
(only the fields the source reads). -/
structure EventServiceConfig where
  name : String
  subscriptions : List SubscriptionCfg
  deriving Repr, DecidableEq

/-- Compressed payload bytes of one delivered event (opaque to the app;
only handed to the decoder). -/
abbrev Payload := List Nat

/-- Decoded image as returned by `TurboJPEG.decode`: `img.shape[0]` is the
height, `img.shape[1]` the width, `img.data` the pixel buffer. -/
structure Img where
  height : Nat
  width : Nat
  data : List Nat
  deriving Repr, DecidableEq

/-- Result of `self.image_decoder.decode`: either an image or a raised
exception (caught by the `except Exception` clause in the source). -/
inductive DecodeResult where
  | ok (img : Img)
  | err (msg : String)
  deriving Repr, DecidableEq

/-- A decoder function, standing for `TurboJPEG().decode`.  It is an
external library call, so it is a parameter of the model. -/
abbrev Decoder := Payload → DecodeResult

/-- Record of one texture upload, as performed by the loop body of
`stream_camera`: `Texture.create(size=(img.shape[1], img.shape[0]),
icolorfmt="bgr")`, then `texture.flip_vertical()`, then
`texture.blit_buffer(bytes(img.data), colorfmt="bgr", bufferfmt="ubyte")`,
then `self.root.ids[view_name].texture = texture`. -/
structure PresentRecord where
  surfaceKey : String
  flippedVertical : Bool
  colorfmt : String
  bufferfmt : String
  width : Nat
  height : Nat
  data : List Nat
  deriving Repr, DecidableEq

/-- The present record built by `stream_camera` for stream `view_name`
and decoded image `img`. -/
def presentRec (view_name : String) (img : Img) : PresentRecord :=
  { surfaceKey := view_name
    flippedVertical := true
    colorfmt := "bgr"
    bufferfmt := "ubyte"
    width := img.width
    height := img.height
    data := img.data }

/-- Observable outcome of processing one delivered `(event, payload)`
pair in the `async for` body of `stream_camera`. -/
inductive EventOutcome where
  | skipped
  | decodeFailed (logged : Bool)
  | presented (rec : PresentRecord)
  deriving Repr, DecidableEq

/-- Outcome of one loop iteration together with whether the decoder was
invoked during it. -/
structure StepResult where
  outcome : EventOutcome
  decodeAttempted : Bool
  deriving Repr, DecidableEq

/-- The body of the `async for` loop of `CameraApp.stream_camera`,
verbatim from the source:

```
if view_name == self.view_name:
    message = payload_to_protobuf(event, payload)
    try:
        img = self.image_decoder.decode(message.image_data)
    except Exception as e:
        logger.exception(f"Error decoding image: {e}")
        continue
    texture = Texture.create(...); texture.flip_vertical()
    texture.blit_buffer(bytes(img.data), colorfmt="bgr", bufferfmt="ubyte", ...)
    self.root.ids[view_name].texture = texture
```

`view_name` is the stream this task serves, `self_view` the current
`self.view_name`.  Note the active-view check guards the decode. -/
def processEvent (view_name self_view : String) (d : Decoder) (p : Payload) :
    StepResult :=
  if view_name == self_view then
    match d p with
    | .err _ => { outcome := .decodeFailed true, decodeAttempted := true }
    | .ok img =>
        { outcome := .presented (presentRec view_name img), decodeAttempted := true }
  else
    { outcome := .skipped, decodeAttempted := false }

/-- An atomic operation of the cooperative event loop: either one stream
task processes a delivered event, or the UI calls
`CameraApp.update_view` switching `self.view_name`. -/
inductive Op where
  | deliver (stream : String) (p : Payload)
  | switch (name : String)
  deriving Repr, DecidableEq

/-- The per-event outcomes of a sequence of interleaved operations,
starting with `self.view_name = view`: a `switch` updates the shared
view name (`update_view`), a `deliver` runs the loop body of the
corresponding stream task atomically. -/
def runOutcomes (d : Decoder) (view : String) : List Op → List (String × StepResult)
  | [] => []
  | .switch n :: rest => runOutcomes d n rest
  | .deliver st p :: rest =>
      (st, processEvent st view d p) :: runOutcomes d view rest

/-- The value of `self.view_name` after a sequence of operations (only `switch`,
i.e. `update_view`, writes it). -/
def viewAfter (view : String) : List Op → String
  | [] => view
  | .switch n :: rest => viewAfter n rest
  | .deliver _ _ :: rest => viewAfter view rest

/-- Whether a `StepResult` presented a frame. -/
def isPresented : EventOutcome → Bool
  | .presented _ => true
  | _ => false

namespace CameraApp

/-- The class attribute `CameraApp.STREAM_NAMES = ["rgb", "disparity", "left", "right"]`. -/
def STREAM_NAMES : List String := ["rgb", "disparity", "left", "right"]

end CameraApp

/-- The mutable attributes of a `CameraApp` instance that the embedded
code reads or writes.  `tasks` and `cancelled` start empty (the
attribute `self.tasks` does not exist before `app_func` assigns it; we
record the tasks cancelled so far in `cancelled`). -/
structure CameraAppState where
  view_name : String
  async_tasks : List String
  tasks : List String
  cancelled : List String
  deriving Repr, DecidableEq

namespace CameraApp

/-- The constructor `CameraApp.__init__`: sets `self.view_name = "rgb"` and
`self.async_tasks = []` (the task lists that exist at this point). -/
def initApp : CameraAppState :=
  { view_name := "rgb", async_tasks := [], tasks := [], cancelled := [] }

/-- The method `CameraApp.update_view(view_name)`: `self.view_name = view_name`. -/
def update_view (s : CameraAppState) (view_name : String) : CameraAppState :=
  { s with view_name := view_name }

/-- The task-creation step of `app_func` (after the `oak0` check
succeeded): `self.tasks = [create_task(stream_camera(oak0_client, v))
for v in self.STREAM_NAMES]`.  We identify each task by its stream
name. -/
def startTasks (s : CameraAppState) : CameraAppState :=
  { s with tasks := STREAM_NAMES }

/-- The tail of `run_wrapper` in `app_func`: after
`await self.async_run(...)` returns (the UI event loop terminated),
`for task in self.async_tasks: task.cancel()`. -/
def runWrapperCancel (s : CameraAppState) : CameraAppState :=
  { s with cancelled := s.cancelled ++ s.async_tasks }

/-- The method `CameraApp.on_exit_btn`: `for task in self.tasks: task.cancel()`,
then stops the app. -/
def on_exit_btn (s : CameraAppState) : CameraAppState :=
  { s with cancelled := s.cancelled ++ s.tasks }

end CameraApp

/-- A raised Python exception, as far as the embedded startup code can
raise one: the `RuntimeError(f"No {config.name} service config provided
in service_config.json")`, or the `NameError` that the f-string itself
raises when the loop variable `config` is unbound. -/
inductive PyError where
  | runtimeError (msg : String)
  | nameError (unboundVar : String)
  deriving Repr, DecidableEq

/-- Result of the startup portion of `CameraApp.app_func`: the stream
tasks launched (by stream name) and the raised error, if any. -/
structure AppFuncResult where
  launched : List String
  error : Option PyError
  deriving Repr, DecidableEq

/-- The `for config in config_list.configs: if config.name == "oak0":
oak0_client = EventClient(config)` loop of `app_func`: every match
overwrites `oak0_client`, so the last config named `"oak0"` wins. -/
def resolveOak0 (configs : List EventServiceConfig) : Option EventServiceConfig :=
  configs.foldl (fun acc c => if c.name == "oak0" then some c else acc) none

/-- The startup logic of `CameraApp.app_func` after parsing the config
file: resolve the `oak0` client; if none was found, raise
`RuntimeError(f"No {config.name} ...")` — where `config` is the loop
variable, i.e. the **last** element of the list, and is unbound
(`NameError`) when the list is empty; otherwise create one
`stream_camera` task per `STREAM_NAMES` entry. -/
def app_func (configs : List EventServiceConfig) : AppFuncResult :=
  match resolveOak0 configs with
  | some _ => { launched := CameraApp.STREAM_NAMES, error := none }
  | none =>
      match configs.getLast? with
      | some lastConfig =>
          { launched := []
            error := some (.runtimeError
              ("No " ++ lastConfig.name ++ " service config provided in service_config.json")) }
      | none => { launched := [], error := some (.nameError "config") }

/-- The `SubscribeRequest(uri=Uri(path=f"/{view_name}"), every_n=rate)`
value sent to `oak_client.subscribe`. -/
structure SubscribeReq where
  uriPath : String
  every_n : Nat
  deriving Repr, DecidableEq

/-- The request built by `stream_camera`:
`rate = oak_client.config.subscriptions[0].every_n` followed by
`SubscribeRequest(uri=Uri(path=f"/{view_name}"), every_n=rate)`.
`subscriptions[0]` raises `IndexError` on an empty list, hence the
`Option`. -/
def subscribeRequest (cfg : EventServiceConfig) (view_name : String) :
    Option SubscribeReq :=
  cfg.subscriptions.head?.map fun s =>
    { uriPath := "/" ++ view_name, every_n := s.every_n }

/-- Modelled from the spec: the per-stream sampling interval — "the
sampling interval of that stream's own descriptor (per-stream N, taken
from the stream's configuration)".  The source has no per-stream
descriptor; the closest configured datum is the subscription entry of
the shared service config whose uri path names the stream, so we read
`every_n` from that entry. -/
def everyN_spec (cfg : EventServiceConfig) (view_name : String) : Option Nat :=
  (cfg.subscriptions.find? fun s => s.uriPath == "/" ++ view_name).map
    (·.every_n)

/-- Observable actions of `stream_camera` before its first delivery. -/
inductive StartupAction where
  | sleepPoll
  | subscribe
  deriving Repr, DecidableEq

/-- The `while self.root is None: await asyncio.sleep(0.01)` gate of
`stream_camera`, followed by the call to `oak_client.subscribe`:
`rootAt k` tells whether `self.root` is non-null at the k-th poll.  The
loop has no bound in the source; fuel makes it total, with `none`
meaning the loop was still spinning after `fuel` polls. -/
def startupTrace (rootAt : Nat → Bool) : Nat → Option (List StartupAction)
  | 0 => none
  | fuel + 1 =>
      if rootAt 0 then some [StartupAction.subscribe]
      else (startupTrace (fun k => rootAt (k + 1)) fuel).map
        (StartupAction.sleepPoll :: ·)

/-! ## Helper lemmas -/

/-- An event of a non-active stream is skipped without invoking the decoder. -/
lemma processEvent_of_ne (view_name self_view : String) (d : Decoder) (p : Payload)
    (h : view_name ≠ self_view) :
    processEvent view_name self_view d p = ⟨.skipped, false⟩ := by
  simp [processEvent, h]

/-- An event of the active stream whose payload decodes is presented. -/
lemma processEvent_of_ok (view_name : String) (d : Decoder) (p : Payload) (img : Img)
    (h : d p = .ok img) :
    processEvent view_name view_name d p
      = ⟨.presented (presentRec view_name img), true⟩ := by
  simp [processEvent, h]

/-- An event of the active stream whose payload fails to decode is logged
and dropped. -/
lemma processEvent_of_err (view_name : String) (d : Decoder) (p : Payload) (m : String)
    (h : d p = .err m) :
    processEvent view_name view_name d p = ⟨.decodeFailed true, true⟩ := by
  simp [processEvent, h]

/-- Splitting a run of interleaved operations at a list append. -/
lemma runOutcomes_append (d : Decoder) (v : String) (xs ys : List Op) :
    runOutcomes d v (xs ++ ys)
      = runOutcomes d v xs ++ runOutcomes d (viewAfter v xs) ys := by
  induction xs generalizing v with
  | nil => simp [runOutcomes, viewAfter]
  | cons op rest ih => cases op <;> simp [runOutcomes, viewAfter, ih]

/-- In a run without view switches, every outcome entry comes from a
delivered event of that stream, processed against the fixed view. -/
lemma runOutcomes_noswitch_mem (d : Decoder) (v : String) (ops : List Op)
    (hns : ∀ n, Op.switch n ∉ ops) (e : String × StepResult)
    (he : e ∈ runOutcomes d v ops) :
    ∃ p, Op.deliver e.1 p ∈ ops ∧ e.2 = processEvent e.1 v d p := by
  induction ops with
  | nil => simp [runOutcomes] at he
  | cons op rest ih =>
      have hns' : ∀ n, Op.switch n ∉ rest := fun n hn =>
        hns n (List.mem_cons_of_mem _ hn)
      cases op with
      | switch n => exact absurd (List.mem_cons_self _ _) (hns n)
      | deliver st p =>
          simp only [runOutcomes, List.mem_cons] at he
          rcases he with he | he
          · subst he
            exact ⟨p, List.mem_cons_self _ _, rfl⟩
          · obtain ⟨p', hp', hq⟩ := ih hns' he
            exact ⟨p', List.mem_cons_of_mem _ hp', hq⟩

/-- In a run without view switches, every delivered event contributes
its outcome entry. -/
lemma runOutcomes_noswitch_of_deliver (d : Decoder) (v st : String) (p : Payload)
    (ops : List Op) (hns : ∀ n, Op.switch n ∉ ops) (hmem : Op.deliver st p ∈ ops) :
    (st, processEvent st v d p) ∈ runOutcomes d v ops := by
  induction ops with
  | nil => simp at hmem
  | cons op rest ih =>
      have hns' : ∀ n, Op.switch n ∉ rest := fun n hn =>
        hns n (List.mem_cons_of_mem _ hn)
      cases op with
      | switch n => exact absurd (List.mem_cons_self _ _) (hns n)
      | deliver st' p' =>
          simp only [List.mem_cons] at hmem
          simp only [runOutcomes, List.mem_cons]
          rcases hmem with hmem | hmem
          · injection hmem with h1 h2
            subst h1; subst h2
            exact Or.inl rfl
          · exact Or.inr (ih hns' hmem)

/-- The fold of the `oak0`-search loop leaves the accumulator unchanged
when no config is named `"oak0"`. -/
lemma foldl_oak0_id (configs : List EventServiceConfig)
    (h : ∀ c ∈ configs, c.name ≠ "oak0") (acc : Option EventServiceConfig) :
    configs.foldl (fun acc c => if c.name == "oak0" then some c else acc) acc = acc := by
  induction configs generalizing acc with
  | nil => rfl
  | cons c rest ih =>
      have hc : c.name ≠ "oak0" := h c (List.mem_cons_self _ _)
      have hrest : ∀ c' ∈ rest, c'.name ≠ "oak0" := fun c' hc' =>
        h c' (List.mem_cons_of_mem _ hc')
      simp only [List.foldl_cons]
      rw [if_neg (by simp [hc])]
      exact ih hrest acc

/-- When no config is named `"oak0"`, the search loop resolves no client. -/
lemma resolveOak0_eq_none (configs : List EventServiceConfig)
    (h : ∀ c ∈ configs, c.name ≠ "oak0") :
    resolveOak0 configs = none :=
  foldl_oak0_id configs h none

/-! ## Claim theorems -/

/-- C1 counterexample: an event delivered on stream `"left"` while the
active view is `"rgb"` is discarded **without** the decoder ever being
invoked — the source gates on the active view before decoding, so it is
false that "the Subscriber decodes the payload regardless of which
stream is currently active, and only afterwards gates on the active
view". -/
theorem C1_decode_regardless_counterexample :
    (processEvent "left" "rgb" (fun _ => DecodeResult.ok ⟨2, 3, [0]⟩)
        [1, 2]).decodeAttempted = false := by
  rfl

/-- C1 (amended): for every delivered event, the Subscriber first checks
whether this stream's name equals the current ActiveViewState; if they
differ the event is discarded without decoding, and the decoder runs
exactly when the stream is active; if the stream is active and the
payload decodes, the frame is handed to the Display Sink. -/
theorem C1_gate_then_decode (view_name self_view : String) (d : Decoder)
    (p : Payload) :
    (processEvent view_name self_view d p).decodeAttempted
        = (view_name == self_view) ∧
    (view_name ≠ self_view →
      processEvent view_name self_view d p = ⟨.skipped, false⟩) ∧
    (∀ img, view_name = self_view → d p = .ok img →
      (processEvent view_name self_view d p).outcome
        = .presented (presentRec view_name img)) := by
  refine ⟨?_, ?_, ?_⟩
  · by_cases h : view_name = self_view
    · subst h
      simp only [processEvent, beq_self_eq_true, if_true]
      cases d p <;> rfl
    · simp [processEvent, h]
  · intro h
    exact processEvent_of_ne view_name self_view d p h
  · intro img h hd
    subst h
    rw [processEvent_of_ok view_name d p img hd]

/-- Witness for C1: with the active view `"rgb"` and a decodable
payload, the event on stream `"rgb"` is presented. -/
theorem C1_gate_then_decode_witness :
    (processEvent "rgb" "rgb" (fun _ => DecodeResult.ok ⟨2, 3, [7]⟩)
        [9]).outcome = .presented (presentRec "rgb" ⟨2, 3, [7]⟩) :=
  (C1_gate_then_decode "rgb" "rgb" (fun _ => DecodeResult.ok ⟨2, 3, [7]⟩)
      [9]).2.2 ⟨2, 3, [7]⟩ rfl rfl

/-- C2 (code bug): when the UI event loop terminates, `run_wrapper`
cancels the tasks listed in `self.async_tasks` — but `__init__` set that
list to `[]` and nothing ever appends to it, while the four stream
tasks were stored in `self.tasks`.  After the shutdown path runs, the
set of cancelled tasks is empty and all four stream tasks are still
outstanding: in particular the `"rgb"` stream task is running and was
never cancelled. -/
theorem C2_shutdown_cancels_no_stream_task :
    (CameraApp.runWrapperCancel (CameraApp.startTasks CameraApp.initApp)).cancelled
        = [] ∧
    (CameraApp.runWrapperCancel (CameraApp.startTasks CameraApp.initApp)).tasks
        = CameraApp.STREAM_NAMES ∧
    "rgb" ∈ (CameraApp.runWrapperCancel (CameraApp.startTasks CameraApp.initApp)).tasks ∧
    "rgb" ∉ (CameraApp.runWrapperCancel (CameraApp.startTasks CameraApp.initApp)).cancelled := by
  refine ⟨rfl, rfl, ?_, ?_⟩
  · simp [CameraApp.runWrapperCancel, CameraApp.startTasks, CameraApp.initApp,
      CameraApp.STREAM_NAMES]
  · simp [CameraApp.runWrapperCancel, CameraApp.startTasks, CameraApp.initApp]

/-- C3: a payload of the active stream that fails to decode is logged,
produces no presented frame, and the loop goes on to process the
remaining events of the same subscription exactly as it otherwise
would — a decode failure never terminates the stream task. -/
theorem C3_decode_failure_logged_and_continues (d : Decoder) (v : String)
    (p : Payload) (m : String) (rest : List Op) (h : d p = .err m) :
    runOutcomes d v (.deliver v p :: rest)
        = (v, ⟨.decodeFailed true, true⟩) :: runOutcomes d v rest ∧
    isPresented (processEvent v v d p).outcome = false := by
  refine ⟨?_, ?_⟩
  · simp only [runOutcomes]
    rw [processEvent_of_err v d p m h]
  · rw [processEvent_of_err v d p m h]
    rfl

/-- Witness for C3: a corrupted payload `[0]` between valid ones is
dropped and the next event is still processed. -/
theorem C3_decode_failure_logged_and_continues_witness :
    runOutcomes (fun p => if p = [0] then DecodeResult.err "bad"
        else DecodeResult.ok ⟨1, 1, [5]⟩) "rgb"
        [Op.deliver "rgb" [0], Op.deliver "rgb" [1]]
      = ("rgb", ⟨.decodeFailed true, true⟩)
          :: runOutcomes (fun p => if p = [0] then DecodeResult.err "bad"
              else DecodeResult.ok ⟨1, 1, [5]⟩) "rgb" [Op.deliver "rgb" [1]] :=
  (C3_decode_failure_logged_and_continues
      (fun p => if p = [0] then DecodeResult.err "bad"
        else DecodeResult.ok ⟨1, 1, [5]⟩)
      "rgb" [0] "bad" [Op.deliver "rgb" [1]] rfl).1

/-- C4 counterexample: `update_view` performs no validation, so a single
call with the unknown name `"foo"` drives the ActiveViewState out of
the configured stream-name set — the invariant claimed after "any
sequence of setActive calls" fails. -/
theorem C4_unknown_name_escapes_counterexample :
    (CameraApp.update_view CameraApp.initApp "foo").view_name
      ∉ CameraApp.STREAM_NAMES := by
  decide

/-- C4 (amended): the ActiveViewState starts as the configured name
`"rgb"`, and it still equals a configured name after any sequence of
`update_view` calls **whose arguments are all configured names**;
`update_view` itself is total (never crashes) but stores whatever name
it is given, without validation. -/
theorem C4_view_name_invariant :
    CameraApp.initApp.view_name ∈ CameraApp.STREAM_NAMES ∧
    (∀ (s : CameraAppState) (names : List String),
      s.view_name ∈ CameraApp.STREAM_NAMES →
      (∀ n ∈ names, n ∈ CameraApp.STREAM_NAMES) →
      (names.foldl CameraApp.update_view s).view_name ∈ CameraApp.STREAM_NAMES) ∧
    (∀ (s : CameraAppState) (n : String),
      (CameraApp.update_view s n).view_name = n) := by
  refine ⟨by decide, ?_, fun s n => rfl⟩
  intro s names
  induction names generalizing s with
  | nil => intro hs _; simpa using hs
  | cons n rest ih =>
      intro hs hall
      simp only [List.foldl_cons]
      exact ih (CameraApp.update_view s n)
        (by simpa [CameraApp.update_view] using hall n (List.mem_cons_self _ _))
        (fun n' hn' => hall n' (List.mem_cons_of_mem _ hn'))

/-- Witness for C4: starting from `__init__` and switching through
configured names keeps the view name configured. -/
theorem C4_view_name_invariant_witness :
    ((["left", "disparity"] : List String).foldl CameraApp.update_view
        CameraApp.initApp).view_name ∈ CameraApp.STREAM_NAMES :=
  C4_view_name_invariant.2.1 CameraApp.initApp ["left", "disparity"]
    (by decide) (by decide)

/-- C5: when the resolved configuration has no entry named `"oak0"`,
`app_func` raises an error and launches zero stream tasks; and whenever
any stream task has been launched, no error was raised — so the
missing-configuration condition is never encountered after tasks have
started. -/
theorem C5_missing_config_fails_before_launch
    (configs : List EventServiceConfig)
    (h : ∀ c ∈ configs, c.name ≠ "oak0") :
    (app_func configs).error.isSome = true ∧
    (app_func configs).launched = [] ∧
    (∀ cs : List EventServiceConfig,
      (app_func cs).launched ≠ [] → (app_func cs).error = none) := by
  refine ⟨?_, ?_, ?_⟩
  · rw [app_func, resolveOak0_eq_none configs h]
    cases configs.getLast? <;> rfl
  · rw [app_func, resolveOak0_eq_none configs h]
    cases configs.getLast? <;> rfl
  · intro cs hl
    rw [app_func] at hl ⊢
    cases hr : resolveOak0 cs with
    | some c => rfl
    | none =>
        rw [hr] at hl
        exfalso
        cases hg : cs.getLast? <;> rw [hg] at hl <;> exact hl rfl

/-- Witness for C5: a configuration holding only a `"gps"` service makes
startup fail with no task launched. -/
theorem C5_missing_config_fails_before_launch_witness :
    (app_func [⟨"gps", []⟩]).error.isSome = true ∧
    (app_func [⟨"gps", []⟩]).launched = [] :=
  ⟨(C5_missing_config_fails_before_launch [⟨"gps", []⟩] (by decide)).1,
   (C5_missing_config_fails_before_launch [⟨"gps", []⟩] (by decide)).2.1⟩

/-- C6: whenever the busy-wait loop of `stream_camera` terminates (the
trace is defined), the trace consists of sleep-polls followed by a
single `subscribe`, the subscription is opened at the first poll at
which `self.root` is non-null, and at every earlier poll the root was
still null — no subscription is opened, hence no frame delivered,
before the display surface exists. -/
theorem C6_no_subscribe_before_root (rootAt : Nat → Bool) (fuel : Nat)
    (tr : List StartupAction) (h : startupTrace rootAt fuel = some tr) :
    ∃ i, tr = List.replicate i StartupAction.sleepPoll
          ++ [StartupAction.subscribe]
        ∧ rootAt i = true ∧ ∀ j < i, rootAt j = false := by
  induction fuel generalizing rootAt tr with
  | zero => simp [startupTrace] at h
  | succ fuel ih =>
      rw [startupTrace] at h
      by_cases h0 : rootAt 0 = true
      · rw [if_pos h0] at h
        refine ⟨0, ?_, h0, by omega⟩
        simpa using h.symm
      · rw [if_neg h0] at h
        obtain ⟨tr', htr', rfl⟩ := Option.map_eq_some'.mp h
        obtain ⟨i, hshape, hroot, hbefore⟩ := ih (fun k => rootAt (k + 1)) tr' htr'
        refine ⟨i + 1, ?_, hroot, ?_⟩
        · rw [hshape]; rfl
        · intro j hj
          cases j with
          | zero => exact eq_false_of_ne_true h0
          | succ j' => exact hbefore j' (by omega)

/-- Witness for C6: with the root appearing at the second poll, the task
sleeps once and then subscribes. -/
theorem C6_no_subscribe_before_root_witness :
    ∃ i, ([StartupAction.sleepPoll, StartupAction.subscribe]
          : List StartupAction)
          = List.replicate i StartupAction.sleepPoll
            ++ [StartupAction.subscribe]
        ∧ (fun k : Nat => k != 0) i = true
        ∧ ∀ j < i, (fun k : Nat => k != 0) j = false :=
  C6_no_subscribe_before_root (fun k => k != 0) 5
    [StartupAction.sleepPoll, StartupAction.subscribe] rfl

/-- C7 input: an `oak0` service whose subscription list carries distinct
sampling intervals for the `/rgb` and `/left` uris. -/
def oak0TwoRates : EventServiceConfig :=
  { name := "oak0"
    subscriptions := [⟨"/rgb", 1⟩, ⟨"/left", 5⟩] }

/-- C7 counterexample: `stream_camera` reads the rate from
`config.subscriptions[0]` for every stream, so the request it sends for
the `"left"` stream carries `every_n = 1` even though the subscription
entry for `/left` — the stream's own configuration — says `every_n = 5`:
the requested interval is not the per-stream one. -/
theorem C7_per_stream_rate_counterexample :
    ((subscribeRequest oak0TwoRates "left").map (·.every_n) = some 1) ∧
    (everyN_spec oak0TwoRates "left" = some 5) ∧
    (subscribeRequest oak0TwoRates "left").map (·.every_n)
      ≠ everyN_spec oak0TwoRates "left" := by
  refine ⟨rfl, ?_, ?_⟩ <;> decide

/-- C7 (amended): every stream's subscription request takes its
`every_n` from the **first** subscription entry of the shared `oak0`
service config, so all four streams request the same sampling interval
regardless of any per-stream configuration. -/
theorem C7_rate_from_first_subscription (cfg : EventServiceConfig)
    (view_name : String) (s0 : SubscriptionCfg)
    (h : cfg.subscriptions.head? = some s0) :
    subscribeRequest cfg view_name
        = some { uriPath := "/" ++ view_name, every_n := s0.every_n } ∧
    (∀ v1 v2 : String,
      (subscribeRequest cfg v1).map (·.every_n)
        = (subscribeRequest cfg v2).map (·.every_n)) := by
  constructor
  · rw [subscribeRequest, h]
    rfl
  · intro v1 v2
    rw [subscribeRequest, subscribeRequest, h]
    rfl

/-- Witness for C7: for the two-rate config the `"left"` request uses
the first entry's interval. -/
theorem C7_rate_from_first_subscription_witness :
    subscribeRequest oak0TwoRates "left"
      = some { uriPath := "/" ++ "left", every_n := (1 : Nat) } :=
  (C7_rate_from_first_subscription oak0TwoRates "left" ⟨"/rgb", 1⟩ rfl).1

/-- A list filters to nil when every member fails the predicate. -/
lemma filter_nil_of_allneg {α : Type} (q : α → Bool) (l : List α)
    (h : ∀ a ∈ l, q a = false) : l.filter q = [] := by
  induction l with
  | nil => rfl
  | cons a rest ih =>
      simp only [List.filter_cons, h a (List.mem_cons_self _ _),
        Bool.false_eq_true, if_false]
      exact ih fun a' ha' => h a' (List.mem_cons_of_mem _ ha')

/-- C8: every presented frame goes through `Texture.create(...,
icolorfmt="bgr")`, `flip_vertical()`, and `blit_buffer(bytes(img.data),
colorfmt="bgr", bufferfmt="ubyte")`, and the texture is assigned to
`self.root.ids[view_name]` — the surface keyed by the presenting
stream's own name. -/
theorem C8_present_flip_bgr_keyed (view_name self_view : String)
    (d : Decoder) (p : Payload) (img : Img)
    (ha : view_name = self_view) (hd : d p = .ok img) :
    (processEvent view_name self_view d p).outcome
        = .presented (presentRec view_name img) ∧
    (presentRec view_name img).flippedVertical = true ∧
    (presentRec view_name img).colorfmt = "bgr" ∧
    (presentRec view_name img).bufferfmt = "ubyte" ∧
    (presentRec view_name img).surfaceKey = view_name ∧
    (presentRec view_name img).data = img.data := by
  subst ha
  exact ⟨by rw [processEvent_of_ok view_name d p img hd], rfl, rfl, rfl, rfl, rfl⟩

/-- Witness for C8: a concrete decoded frame on the active `"rgb"`
stream is presented flipped, in BGR, on the `"rgb"` surface. -/
theorem C8_present_flip_bgr_keyed_witness :
    (processEvent "rgb" "rgb" (fun _ => DecodeResult.ok ⟨4, 6, [1, 2, 3]⟩)
        [8]).outcome = .presented (presentRec "rgb" ⟨4, 6, [1, 2, 3]⟩) ∧
    (presentRec "rgb" ⟨4, 6, [1, 2, 3]⟩).flippedVertical = true ∧
    (presentRec "rgb" ⟨4, 6, [1, 2, 3]⟩).colorfmt = "bgr" ∧
    (presentRec "rgb" ⟨4, 6, [1, 2, 3]⟩).bufferfmt = "ubyte" ∧
    (presentRec "rgb" ⟨4, 6, [1, 2, 3]⟩).surfaceKey = "rgb" ∧
    (presentRec "rgb" ⟨4, 6, [1, 2, 3]⟩).data = Img.data ⟨4, 6, [1, 2, 3]⟩ :=
  C8_present_flip_bgr_keyed "rgb" "rgb"
    (fun _ => DecodeResult.ok ⟨4, 6, [1, 2, 3]⟩) [8] ⟨4, 6, [1, 2, 3]⟩ rfl rfl

/-- C9: switching the active view from `A` to `B` (with no further
switch): the run splits at the switch and continues with view `B`;
every event of `A` processed after the switch is skipped; the number of
frames of `A` presented after the switch is at most one (in fact zero,
since the active-view check and the upload run atomically on the
cooperative loop); and every decodable event of `B` delivered after the
switch is presented. -/
theorem C9_switch_discards_old_presents_new (d : Decoder)
    (v0 A B : String) (pre suffix : List Op)
    (hns : ∀ n, Op.switch n ∉ suffix) (hAB : A ≠ B) :
    runOutcomes d v0 (pre ++ Op.switch B :: suffix)
        = runOutcomes d v0 pre ++ runOutcomes d B suffix ∧
    (∀ e ∈ runOutcomes d B suffix, e.1 = A → e.2.outcome = .skipped) ∧
    ((runOutcomes d B suffix).filter
        (fun e => e.1 == A && isPresented e.2.outcome)).length ≤ 1 ∧
    (∀ (p : Payload) (img : Img), Op.deliver B p ∈ suffix → d p = .ok img →
      (B, (⟨.presented (presentRec B img), true⟩ : StepResult))
        ∈ runOutcomes d B suffix) := by
  have hskip : ∀ e ∈ runOutcomes d B suffix, e.1 = A → e.2.outcome = .skipped := by
    intro e he hA
    obtain ⟨p, _, hq⟩ := runOutcomes_noswitch_mem d B suffix hns e he
    rw [hq, hA, processEvent_of_ne A B d p hAB]
  refine ⟨?_, hskip, ?_, ?_⟩
  · rw [runOutcomes_append]
    rfl
  · have : (runOutcomes d B suffix).filter
        (fun e => e.1 == A && isPresented e.2.outcome) = [] := by
      refine filter_nil_of_allneg _ _ (fun e he => ?_)
      by_cases hA : e.1 = A
      · rw [hskip e he hA]
        simp [isPresented]
      · simp [hA]
    rw [this]
    exact Nat.zero_le 1
  · intro p img hmem hd
    have := runOutcomes_noswitch_of_deliver d B B p suffix hns hmem
    rwa [processEvent_of_ok B d p img hd] at this

/-- Witness for C9: after switching from `"rgb"` to `"left"`, the run
over one pre-switch `"rgb"` event and two post-switch events splits at
the switch and continues with `"left"` as the view. -/
theorem C9_switch_discards_old_presents_new_witness :
    runOutcomes (fun _ => DecodeResult.ok ⟨1, 1, [3]⟩) "rgb"
        ([Op.deliver "rgb" [1]] ++ Op.switch "left"
          :: [Op.deliver "rgb" [2], Op.deliver "left" [3]])
      = runOutcomes (fun _ => DecodeResult.ok ⟨1, 1, [3]⟩) "rgb"
          [Op.deliver "rgb" [1]]
        ++ runOutcomes (fun _ => DecodeResult.ok ⟨1, 1, [3]⟩) "left"
          [Op.deliver "rgb" [2], Op.deliver "left" [3]] :=
  (C9_switch_discards_old_presents_new (fun _ => DecodeResult.ok ⟨1, 1, [3]⟩)
      "rgb" "rgb" "left" [Op.deliver "rgb" [1]]
      [Op.deliver "rgb" [2], Op.deliver "left" [3]]
      (by intro n hn; simp at hn) (by decide)).1

/-- C10: when no config is named `"oak0"`, the error raised by
`app_func` is the `RuntimeError` whose message interpolates the name of
the **last** config of the list (the leaked loop variable) when the
list is non-empty, and a `NameError` on the unbound variable `config`
when the list is empty. -/
theorem C10_error_message_uses_last_config
    (configs : List EventServiceConfig)
    (h : ∀ c ∈ configs, c.name ≠ "oak0") :
    (app_func configs).error
      = match configs.getLast? with
        | some lastConfig => some (.runtimeError
            ("No " ++ lastConfig.name
              ++ " service config provided in service_config.json"))
        | none => some (.nameError "config") := by
  rw [app_func, resolveOak0_eq_none configs h]
  cases configs.getLast? <;> rfl

/-- Witness for C10: a two-entry list without `"oak0"` raises the
`RuntimeError` naming its last entry, `"imu"`. -/
theorem C10_error_message_uses_last_config_witness :
    (app_func [⟨"gps", []⟩, ⟨"imu", []⟩]).error
      = match ([⟨"gps", []⟩, ⟨"imu", []⟩]
          : List EventServiceConfig).getLast? with
        | some lastConfig => some (.runtimeError
            ("No " ++ lastConfig.name
              ++ " service config provided in service_config.json"))
        | none => some (.nameError "config") :=
  C10_error_message_uses_last_config [⟨"gps", []⟩, ⟨"imu", []⟩] (by decide)

end CameraStreamer
